import Mathlib

/-!
Shallow embedding of `app/clients/claude_client.py` (DeepClaude repository):
the `ClaudeClient` class, its request encoding (`__init__` plus the header /
payload construction at the top of `stream_chat`) and its response
normalization (the streaming SSE loop and the non-streaming JSON loop of
`stream_chat`).

Modelling conventions:
* Decoded byte chunks are `List Char` (Python `str` after `chunk.decode`).
* Python JSON values are the inductive `Json`; Python floats are modelled
  exactly as `Rat` (no claim in scope depends on float rounding).
* `json.loads` is modelled by the executable recursive-descent `json_loads`
  below over the JSON grammar (objects keep duplicate keys in order; lookups
  take the last binding, matching Python dict insertion semantics).
* Python exceptions inside the per-line / per-chunk `try` blocks
  (`json.JSONDecodeError`, `AttributeError` from `.get` on a non-dict,
  `TypeError`/`IndexError`/`KeyError` from `[0]`, and the inner
  `raise ValueError`) are all caught by the `except` clauses and only logged;
  they are modelled as `Option`-failures that contribute no events.
-/

abbrev Chars := List Char

/-- JSON values as produced by `json.loads`. -/
inductive Json where
  | null
  | bool (b : Bool)
  | num (q : Rat)
  | str (s : String)
  | arr (xs : List Json)
  | obj (kvs : List (String × Json))

/-- A normalized event yielded by `stream_chat`: `("answer", content)`.
The content is kept as a `Json` value because Python `yield` passes through
whatever value the frame carried. -/
abbrev Event := String × Json

/-- JSON whitespace accepted by `json.loads` between tokens. -/
def isJsonWS (c : Char) : Bool :=
  c == ' ' || c == '\t' || c == '\n' || c == '\r'

def skipWS (l : Chars) : Chars := l.dropWhile isJsonWS

/-- Value of one hexadecimal digit, for `\uXXXX` escapes. -/
def hexVal (c : Char) : Option Nat :=
  if '0' ≤ c ∧ c ≤ '9' then some (c.toNat - '0'.toNat)
  else if 'a' ≤ c ∧ c ≤ 'f' then some (c.toNat - 'a'.toNat + 10)
  else if 'A' ≤ c ∧ c ≤ 'F' then some (c.toNat - 'A'.toNat + 10)
  else none

/-- Single-character JSON string escapes. -/
def escChar : Char → Option Char
  | '"' => some '"'
  | '\\' => some '\\'
  | '/' => some '/'
  | 'b' => some '\x08'
  | 'f' => some '\x0c'
  | 'n' => some '\n'
  | 'r' => some '\r'
  | 't' => some '\t'
  | _ => none

/-- Parse the body of a JSON string after the opening quote; returns the
string characters and the remaining input after the closing quote.
Raw control characters are rejected, as in Python strict mode. -/
def parseStrChars : Chars → Option (Chars × Chars)
  | [] => none
  | '"' :: rest => some ([], rest)
  | '\\' :: 'u' :: a :: b :: c :: d :: rest =>
    match hexVal a, hexVal b, hexVal c, hexVal d with
    | some ha, some hb, some hc, some hd =>
      (parseStrChars rest).map
        (fun p => (Char.ofNat (((ha * 16 + hb) * 16 + hc) * 16 + hd) :: p.1, p.2))
    | _, _, _, _ => none
  | '\\' :: e :: rest =>
    match escChar e with
    | some c => (parseStrChars rest).map (fun p => (c :: p.1, p.2))
    | none => none
  | c :: rest =>
    if c.toNat < 32 then none
    else (parseStrChars rest).map (fun p => (c :: p.1, p.2))

def digitsToNat (l : Chars) : Nat :=
  l.foldl (fun acc c => acc * 10 + (c.toNat - '0'.toNat)) 0

/-- Optional exponent part of a JSON number, applied to the value so far. -/
def parseExpPart (q : Rat) (l : Chars) : Option (Rat × Chars) :=
  match l with
  | 'e' :: rest => parseExpDigits q rest
  | 'E' :: rest => parseExpDigits q rest
  | _ => some (q, l)
where
  parseExpDigits (q : Rat) (l : Chars) : Option (Rat × Chars) :=
    let sl : Int × Chars :=
      match l with
      | '+' :: r => (1, r)
      | '-' :: r => (-1, r)
      | _ => (1, l)
    let ds := sl.2.takeWhile Char.isDigit
    if ds = [] then none
    else some (q * (10 : Rat) ^ (sl.1 * (digitsToNat ds : Int)), sl.2.dropWhile Char.isDigit)

/-- Optional fraction part of a JSON number, given the integer part. -/
def parseFracPart (intPart : Nat) (l : Chars) : Option (Rat × Chars) :=
  match l with
  | '.' :: rest =>
    let ds := rest.takeWhile Char.isDigit
    if ds = [] then none
    else
      parseExpPart ((intPart : Rat) + (digitsToNat ds : Rat) / (10 : Rat) ^ ds.length)
        (rest.dropWhile Char.isDigit)
  | _ => parseExpPart (intPart : Rat) l

/-- JSON number: optional minus, digits without leading zero, optional
fraction and exponent. -/
def parseNumber (l : Chars) : Option (Json × Chars) :=
  let nl : Bool × Chars :=
    match l with
    | '-' :: r => (true, r)
    | _ => (false, l)
  let ds := nl.2.takeWhile Char.isDigit
  if ds = [] then none
  else if ds.length > 1 ∧ ds.head? = some '0' then none
  else
    (parseFracPart (digitsToNat ds) (nl.2.dropWhile Char.isDigit)).map
      (fun p => (Json.num (if nl.1 then -p.1 else p.1), p.2))

/-- Recursive-descent mode: a single value, the items of an array after the
opening bracket, or the items of an object after the opening brace. -/
inductive PMode where
  | val
  | arrItems
  | objItems

/-- Fuel-indexed JSON recursive descent. `accA`/`accO` accumulate the items
parsed so far in `arrItems`/`objItems` mode. Structural recursion on the
fuel keeps every call kernel-reducible. -/
def parseP : Nat → PMode → List Json → List (String × Json) → Chars → Option (Json × Chars)
  | 0, _, _, _, _ => none
  | Nat.succ f, PMode.val, _, _, l =>
    match l with
    | 'n' :: 'u' :: 'l' :: 'l' :: rest => some (Json.null, rest)
    | 't' :: 'r' :: 'u' :: 'e' :: rest => some (Json.bool true, rest)
    | 'f' :: 'a' :: 'l' :: 's' :: 'e' :: rest => some (Json.bool false, rest)
    | '"' :: rest => (parseStrChars rest).map (fun p => (Json.str (String.mk p.1), p.2))
    | '[' :: rest =>
      (match skipWS rest with
       | ']' :: r2 => some (Json.arr [], r2)
       | l2 => parseP f PMode.arrItems [] [] l2)
    | '{' :: rest =>
      (match skipWS rest with
       | '}' :: r2 => some (Json.obj [], r2)
       | l2 => parseP f PMode.objItems [] [] l2)
    | _ => parseNumber l
  | Nat.succ f, PMode.arrItems, accA, _, l =>
    match parseP f PMode.val [] [] (skipWS l) with
    | none => none
    | some (v, r) =>
      match skipWS r with
      | ',' :: r2 => parseP f PMode.arrItems (accA ++ [v]) [] r2
      | ']' :: r2 => some (Json.arr (accA ++ [v]), r2)
      | _ => none
  | Nat.succ f, PMode.objItems, _, accO, l =>
    match skipWS l with
    | '"' :: r =>
      (match parseStrChars r with
       | none => none
       | some (kcs, r1) =>
         match skipWS r1 with
         | ':' :: r2 =>
           (match parseP f PMode.val [] [] (skipWS r2) with
            | none => none
            | some (v, r3) =>
              match skipWS r3 with
              | ',' :: r4 => parseP f PMode.objItems [] (accO ++ [(String.mk kcs, v)]) r4
              | '}' :: r4 => some (Json.obj (accO ++ [(String.mk kcs, v)]), r4)
              | _ => none)
         | _ => none)
    | _ => none

/-- Model of Python `json.loads` on decoded text: parse one JSON document,
allowing surrounding whitespace; anything else (including trailing garbage)
is a `json.JSONDecodeError`, modelled as `none`. -/
def json_loads (l : Chars) : Option Json :=
  match parseP (2 * l.length + 2) PMode.val [] [] (skipWS l) with
  | some (j, rest) => if skipWS rest = [] then some j else none
  | none => none

/-! ### Python dict / list / truthiness semantics used by `stream_chat` -/

/-- Lookup in an association list where the LAST binding wins, matching the
Python dict built by `json.loads` when keys repeat. -/
def lookupLast {α : Type} : List (String × α) → String → Option α
  | [], _ => none
  | (k, v) :: rest, key =>
    match lookupLast rest key with
    | some r => some r
    | none => if k = key then some v else none

/-- Python `x.get(key, dflt)`: defined for dicts only; on any non-dict value
`.get` raises `AttributeError`, modelled as `none` (the surrounding
`except Exception` clause absorbs it). -/
def pyGetD (j : Json) (key : String) (dflt : Json) : Option Json :=
  match j with
  | Json.obj kvs => some ((lookupLast kvs key).getD dflt)
  | _ => none

/-- Python `x[0]`: first element of a list, first character of a non-empty
string; every other case raises (`IndexError` / `KeyError` / `TypeError`),
modelled as `none`. -/
def pyIndex0 : Json → Option Json
  | Json.arr (x :: _) => some x
  | Json.str s =>
    match s.data with
    | c :: _ => some (Json.str (String.mk [c]))
    | [] => none
  | _ => none

/-- Python truthiness of a JSON value (`if content:` etc.). -/
def pyTruthy : Json → Bool
  | Json.null => false
  | Json.bool b => b
  | Json.num q => if q = 0 then false else true
  | Json.str s => if s = "" then false else true
  | Json.arr [] => false
  | Json.arr (_ :: _) => true
  | Json.obj [] => false
  | Json.obj (_ :: _) => true

/-- Python `j == s` for a string literal `s`: true exactly for the equal
string (no other JSON value compares equal to a `str`). -/
def pyEqStr (j : Json) (s : String) : Bool :=
  match j with
  | Json.str t => t == s
  | _ => false

/-- Characters removed by Python `str.strip()`: exactly the code points for
which CPython `str.isspace()` holds — `\t\n\v\f\r`, the separator controls
U+001C-U+001F, space, NEL (U+0085), NBSP (U+00A0), Ogham space (U+1680),
the spaces U+2000-U+200A, the line/paragraph separators U+2028/U+2029,
narrow NBSP (U+202F), medium mathematical space (U+205F) and ideographic
space (U+3000). -/
def isPySpace (c : Char) : Bool :=
  (0x09 ≤ c.toNat && c.toNat ≤ 0x0d) ||
  (0x1c ≤ c.toNat && c.toNat ≤ 0x20) ||
  c.toNat == 0x85 || c.toNat == 0xa0 || c.toNat == 0x1680 ||
  (0x2000 ≤ c.toNat && c.toNat ≤ 0x200a) ||
  c.toNat == 0x2028 || c.toNat == 0x2029 || c.toNat == 0x202f ||
  c.toNat == 0x205f || c.toNat == 0x3000

/-- Python `s.strip()`. -/
def pyStrip (l : Chars) : Chars :=
  ((l.dropWhile isPySpace).reverse.dropWhile isPySpace).reverse

/-- Python `s.split(sep)` for a one-character separator: keeps empty pieces,
`"".split(c) = [""]`. -/
def splitOnChar (c : Char) : Chars → List Chars
  | [] => [[]]
  | x :: xs =>
    if x = c then [] :: splitOnChar c xs
    else
      match splitOnChar c xs with
      | [] => [[x]]
      | h :: t => (x :: h) :: t

/-- Python `chunk_str.split('\n')`. -/
def splitNl (l : Chars) : List Chars := splitOnChar '\n' l

/-- Python `line.startswith(p)`. -/
def startswith : Chars → Chars → Bool
  | [], _ => true
  | _ :: _, [] => false
  | p :: ps, c :: cs => p == c && startswith ps cs

/-! ### `ClaudeClient.__init__` and the request-encoding half of `stream_chat`
(lines 44-87 of `claude_client.py`) -/

def OPENAI_COMPATIBLE_PROVIDERS : List String := ["openrouter", "oneapi"]

structure ClaudeClient where
  api_key : String
  api_url : String
  provider : String
  is_openai_compatible : Bool

/-- `ClaudeClient.__init__`: stores the provider and computes
`is_openai_compatible or provider in OPENAI_COMPATIBLE_PROVIDERS`. -/
def ClaudeClient.init (api_key : String) (api_url : String) (provider : String)
    (is_openai_compatible : Bool) : ClaudeClient :=
  { api_key := api_key
    api_url := api_url
    provider := provider
    is_openai_compatible :=
      is_openai_compatible || OPENAI_COMPATIBLE_PROVIDERS.contains provider }

/-- Headers of the `provider == "anthropic"` branch. -/
def anthropicHeaders (api_key : String) (stream : Bool) : List (String × String) :=
  [("x-api-key", api_key),
   ("anthropic-version", "2023-06-01"),
   ("content-type", "application/json"),
   ("accept", if stream then "text/event-stream" else "application/json")]

/-- Payload of the `provider == "anthropic"` branch. `model_arg` is the
positional tuple (temperature, top_p, presence_penalty, frequency_penalty). -/
def anthropicData (model : String) (messages : List Json)
    (model_arg : Rat × Rat × Rat × Rat) (stream : Bool) : List (String × Json) :=
  [("model", Json.str model),
   ("messages", Json.arr messages),
   ("max_tokens", Json.num 8192),
   ("stream", Json.bool stream),
   ("temperature", Json.num (if model_arg.1 < 0 ∨ model_arg.1 > 1 then 1 else model_arg.1)),
   ("top_p", Json.num model_arg.2.1)]

/-- Headers of the OpenAI-compatible branch, including the OpenRouter
`headers.update` of the referer and title headers. -/
def openaiHeaders (api_key : String) (provider : String) : List (String × String) :=
  [("Authorization", "Bearer " ++ api_key),
   ("Content-Type", "application/json")] ++
  (if provider = "openrouter" then
     [("HTTP-Referer", "https://github.com/ErlichLiu/DeepClaude"),
      ("X-Title", "DeepClaude")]
   else [])

/-- Payload of the OpenAI-compatible branch. -/
def openaiData (model : String) (messages : List Json)
    (model_arg : Rat × Rat × Rat × Rat) (stream : Bool) : List (String × Json) :=
  [("model", Json.str model),
   ("messages", Json.arr messages),
   ("stream", Json.bool stream),
   ("temperature", Json.num (if model_arg.1 < 0 ∨ model_arg.1 > 1 then 1 else model_arg.1)),
   ("top_p", Json.num model_arg.2.1),
   ("presence_penalty", Json.num model_arg.2.2.1),
   ("frequency_penalty", Json.num model_arg.2.2.2)]

/-- Lines 44-87 of `stream_chat`: the OpenRouter model rewrite followed by
the provider dispatch that builds headers and payload, or raises
`ValueError` (the `UnsupportedProvider` error) for an unsupported provider. -/
def encodeRequest (cl : ClaudeClient) (messages : List Json)
    (model_arg : Rat × Rat × Rat × Rat) (model : String) (stream : Bool) :
    Except String (List (String × String) × List (String × Json)) :=
  let model := if cl.provider = "openrouter" then "anthropic/claude-3.5-sonnet" else model
  if cl.provider = "anthropic" then
    Except.ok (anthropicHeaders cl.api_key stream, anthropicData model messages model_arg stream)
  else if cl.is_openai_compatible then
    Except.ok (openaiHeaders cl.api_key cl.provider, openaiData model messages model_arg stream)
  else
    Except.error ("不支持的Claude Provider: " ++ cl.provider)

/-! ### The response normalizer of `stream_chat` (lines 91-155) -/

/-- `if content: yield "answer", content` — emit one event when the content
is truthy, otherwise nothing. -/
def emitIf (content : Json) : List Event :=
  if pyTruthy content then [("answer", content)] else []

/-- Processing of one streaming data-line payload inside the `try` block
(lines 103-126): parse JSON, then dispatch on the dialect.  Every caught
exception (decode error, attribute/index errors, the unreachable inner
`raise ValueError`) contributes no events. -/
def processDataPayload (cl : ClaudeClient) (json_str : Chars) : List Event :=
  match json_loads json_str with
  | none => []
  | some data =>
    if cl.is_openai_compatible then
      match pyGetD data "choices" (Json.arr []) with
      | none => []
      | some choices =>
        if pyTruthy choices then
          match ((pyIndex0 choices).bind
              (fun c0 => pyGetD c0 "delta" (Json.obj []))).bind
              (fun delta => pyGetD delta "content" (Json.str "")) with
          | none => []
          | some content => emitIf content
        else []
    else if cl.provider = "anthropic" then
      match pyGetD data "type" Json.null with
      | none => []
      | some ty =>
        if pyEqStr ty "content_block_delta" then
          match (pyGetD data "delta" (Json.obj [])).bind
              (fun delta => pyGetD delta "text" (Json.str "")) with
          | none => []
          | some content => emitIf content
        else []
    else []

/-- The `for line in chunk_str.split('\n')` loop: events of one chunk's
lines plus a flag recording whether `data: [DONE]` ended the generator. -/
def processLines (cl : ClaudeClient) : List Chars → List Event × Bool
  | [] => ([], false)
  | l :: ls =>
    if startswith "data: ".data l then
      let json_str := l.drop 6
      if pyStrip json_str = "[DONE]".data then ([], true)
      else
        let res := processLines cl ls
        (processDataPayload cl json_str ++ res.1, res.2)
    else processLines cl ls

/-- The streaming `async for chunk` loop (lines 92-126): skip
whitespace-only chunks, process lines, stop the whole sequence once a
`[DONE]` line was seen. -/
def processChunks (cl : ClaudeClient) : List Chars → List Event
  | [] => []
  | ch :: rest =>
    if pyStrip ch = [] then processChunks cl rest
    else
      let res := processLines cl (splitNl ch)
      if res.2 then res.1 else res.1 ++ processChunks cl rest

/-- Processing of one non-streaming chunk (lines 128-155).  Note the
dispatch here tests `provider in OPENAI_COMPATIBLE_PROVIDERS`, not the
`is_openai_compatible` attribute, and the `raise ValueError` of the final
`else` is caught by the enclosing `except Exception`. -/
def processResponseChunk (cl : ClaudeClient) (chunk : Chars) : List Event :=
  match json_loads chunk with
  | none => []
  | some response =>
    if OPENAI_COMPATIBLE_PROVIDERS.contains cl.provider then
      match pyGetD response "choices" (Json.arr []) with
      | none => []
      | some choices =>
        if pyTruthy choices then
          match ((pyIndex0 choices).bind
              (fun c0 => pyGetD c0 "message" (Json.obj []))).bind
              (fun message => pyGetD message "content" (Json.str "")) with
          | none => []
          | some content => emitIf content
        else []
    else if cl.provider = "anthropic" then
      match pyGetD response "content" (Json.arr []) with
      | none => []
      | some content_list =>
        if pyTruthy content_list then
          match (pyIndex0 content_list).bind (fun c0 => pyGetD c0 "text" (Json.str "")) with
          | none => []
          | some content => emitIf content
        else []
    else []

/-- The non-streaming `async for chunk` loop. -/
def nonStreamEvents (cl : ClaudeClient) : List Chars → List Event
  | [] => []
  | ch :: rest => processResponseChunk cl ch ++ nonStreamEvents cl rest

/-- Whole `stream_chat` call: encode the request (possibly raising the
unsupported-provider `ValueError` before any request is made), then
normalize the transport's chunk sequence in the selected mode. -/
def stream_chat (cl : ClaudeClient) (messages : List Json)
    (model_arg : Rat × Rat × Rat × Rat) (model : String) (stream : Bool)
    (chunks : List Chars) : Except String (List Event) :=
  match encodeRequest cl messages model_arg model stream with
  | Except.error e => Except.error e
  | Except.ok _ =>
    Except.ok (if stream then processChunks cl chunks else nonStreamEvents cl chunks)

/-- The native-Anthropic streaming frame of interest:
`{"type": "content_block_delta", "delta": {"text": t}}`. -/
def anthropicDeltaFrame (t : String) : Json :=
  Json.obj [("type", Json.str "content_block_delta"),
            ("delta", Json.obj [("text", Json.str t)])]

/-! ### Helper lemmas -/

theorem mem_emitIf {ev : Event} {c : Json} (h : ev ∈ emitIf c) :
    ev = ("answer", c) ∧ pyTruthy c = true := by
  unfold emitIf at h
  split at h
  · simp only [List.mem_singleton] at h
    exact ⟨h, by assumption⟩
  · simp at h

theorem mem_processDataPayload_truthy {cl : ClaudeClient} {s : Chars} {ev : Event}
    (h : ev ∈ processDataPayload cl s) : pyTruthy ev.2 = true := by
  unfold processDataPayload at h
  split at h
  · simp at h
  · split at h
    · split at h
      · simp at h
      · split at h
        · split at h
          · simp at h
          · obtain ⟨hev, ht⟩ := mem_emitIf h
            rw [hev]; exact ht
        · simp at h
    · split at h
      · split at h
        · simp at h
        · split at h
          · split at h
            · simp at h
            · obtain ⟨hev, ht⟩ := mem_emitIf h
              rw [hev]; exact ht
          · simp at h
      · simp at h

theorem mem_processResponseChunk_truthy {cl : ClaudeClient} {ch : Chars} {ev : Event}
    (h : ev ∈ processResponseChunk cl ch) : pyTruthy ev.2 = true := by
  unfold processResponseChunk at h
  split at h
  · simp at h
  · split at h
    · split at h
      · simp at h
      · split at h
        · split at h
          · simp at h
          · obtain ⟨hev, ht⟩ := mem_emitIf h
            rw [hev]; exact ht
        · simp at h
    · split at h
      · split at h
        · simp at h
        · split at h
          · split at h
            · simp at h
            · obtain ⟨hev, ht⟩ := mem_emitIf h
              rw [hev]; exact ht
          · simp at h
      · simp at h

theorem mem_processLines_truthy {cl : ClaudeClient} {ls : List Chars} {ev : Event}
    (h : ev ∈ (processLines cl ls).1) : pyTruthy ev.2 = true := by
  induction ls with
  | nil => simp [processLines] at h
  | cons l ls ih =>
    rw [processLines] at h
    split at h
    · dsimp only at h
      split at h
      · simp at h
      · simp only [List.mem_append] at h
        rcases h with h | h
        · exact mem_processDataPayload_truthy h
        · exact ih h
    · exact ih h

theorem mem_processChunks_truthy {cl : ClaudeClient} {chunks : List Chars} {ev : Event}
    (h : ev ∈ processChunks cl chunks) : pyTruthy ev.2 = true := by
  induction chunks with
  | nil => simp [processChunks] at h
  | cons ch rest ih =>
    rw [processChunks] at h
    split at h
    · exact ih h
    · dsimp only at h
      split at h
      · exact mem_processLines_truthy h
      · simp only [List.mem_append] at h
        rcases h with h | h
        · exact mem_processLines_truthy h
        · exact ih h

theorem mem_nonStreamEvents_truthy {cl : ClaudeClient} {chunks : List Chars} {ev : Event}
    (h : ev ∈ nonStreamEvents cl chunks) : pyTruthy ev.2 = true := by
  induction chunks with
  | nil => simp [nonStreamEvents] at h
  | cons ch rest ih =>
    rw [nonStreamEvents] at h
    simp only [List.mem_append] at h
    rcases h with h | h
    · exact mem_processResponseChunk_truthy h
    · exact ih h

theorem processDataPayload_delta_openai_branch {cl : ClaudeClient}
    (hoc : cl.is_openai_compatible = true) {s : Chars} {t : String}
    (h : json_loads s = some (anthropicDeltaFrame t)) :
    processDataPayload cl s = [] := by
  simp [processDataPayload, h, hoc, anthropicDeltaFrame, pyGetD, lookupLast, pyTruthy]

theorem processLines_done_line (cl : ClaudeClient) :
    processLines cl (splitNl "data: [DONE]".data) = ([], true) := rfl

theorem processChunks_done (cl : ClaudeClient) (cs rest : List Chars) :
    processChunks cl (cs ++ "data: [DONE]".data :: rest) = processChunks cl cs := by
  induction cs with
  | nil =>
    simp only [List.nil_append, processChunks]
    rw [if_neg (by decide : ¬pyStrip "data: [DONE]".data = [])]
    rw [processLines_done_line]
    rfl
  | cons c0 cs ih =>
    simp only [List.cons_append, processChunks]
    by_cases h0 : pyStrip c0 = []
    · rw [if_pos h0, if_pos h0]; exact ih
    · rw [if_neg h0, if_neg h0]
      rcases hres : processLines cl (splitNl c0) with ⟨evs, d⟩
      cases d
      · show evs ++ processChunks cl (cs ++ "data: [DONE]".data :: rest) = evs ++ processChunks cl cs
        rw [ih]
      · rfl

/-- C2: a streaming chunk sequence ending in a `data: [DONE]` line yields
exactly the events of the preceding chunks and then terminates: the
`[DONE]` line itself contributes no event, and no chunk after it is
processed. -/
theorem C2_done_terminates (cl : ClaudeClient) (cs rest : List Chars) :
    processChunks cl (cs ++ ["data: [DONE]".data]) = processChunks cl cs ∧
    processChunks cl (cs ++ "data: [DONE]".data :: rest) = processChunks cl cs :=
  ⟨processChunks_done cl cs [], processChunks_done cl cs rest⟩

/-- C3 counterexample: the claim fails for a provider that is OpenAI-compatible
only via the constructor flag.  `ClaudeClient.init "k" "u" "custom" true`
resolves as OpenAI-compatible, yet a non-streaming chunk that parses to an
object with a non-empty `choices` array yields no event, because the
non-streaming branch dispatches on `provider in OPENAI_COMPATIBLE_PROVIDERS`
and the resulting `raise ValueError` is swallowed by `except Exception`.
Additionally, even for provider `"openrouter"`, a chunk whose extracted
`message.content` is the empty string yields no event rather than the
claimed `("answer", "")`. -/
theorem C3_counterexample :
    (json_loads "\x7b\"choices\": [\x7b\"message\": \x7b\"content\": \"hi\"\x7d\x7d]\x7d".data =
      some (Json.obj [("choices",
        Json.arr [Json.obj [("message", Json.obj [("content", Json.str "hi")])]])]) ∧
     stream_chat (ClaudeClient.init "k" "u" "custom" true) [] (1, 1, 0, 0) "m" false
       ["\x7b\"choices\": [\x7b\"message\": \x7b\"content\": \"hi\"\x7d\x7d]\x7d".data] =
       Except.ok [] ∧
     (Except.ok ([] : List Event) : Except String (List Event)) ≠
       Except.ok [(("answer" : String), Json.str "hi")]) ∧
    (json_loads "\x7b\"choices\": [\x7b\"message\": \x7b\"content\": \"\"\x7d\x7d]\x7d".data =
      some (Json.obj [("choices",
        Json.arr [Json.obj [("message", Json.obj [("content", Json.str "")])]])]) ∧
     stream_chat (ClaudeClient.init "k" "u" "openrouter" false) [] (1, 1, 0, 0) "m" false
       ["\x7b\"choices\": [\x7b\"message\": \x7b\"content\": \"\"\x7d\x7d]\x7d".data] =
       Except.ok [] ∧
     (Except.ok ([] : List Event) : Except String (List Event)) ≠
       Except.ok [(("answer" : String), Json.str "")]) := by
  refine ⟨⟨rfl, rfl, ?_⟩, ⟨rfl, rfl, ?_⟩⟩ <;> simp

/-- Non-streaming normalization for a client whose provider is outside
`OPENAI_COMPATIBLE_PROVIDERS` and is not `"anthropic"`: every chunk falls
into the final `else: raise ValueError`, which the enclosing
`except Exception` absorbs, so no event is ever produced. -/
theorem processResponseChunk_other (cl : ClaudeClient)
    (hc : OPENAI_COMPATIBLE_PROVIDERS.contains cl.provider = false)
    (hp : cl.provider ≠ "anthropic") (ch : Chars) :
    processResponseChunk cl ch = [] := by
  unfold processResponseChunk
  rcases hj : json_loads ch with _ | j
  · rfl
  · dsimp only
    rw [if_neg (by rw [hc]; decide :
        ¬ OPENAI_COMPATIBLE_PROVIDERS.contains cl.provider = true),
      if_neg hp]

/-- C3 (amended): for the providers `"openrouter"` and `"oneapi"`, a
non-streaming chunk parsing to a JSON object with a non-empty `choices`
array whose first element carries a non-empty `message.content` string
yields `("answer", content)`; an object with an empty `choices` array
yields no event; and non-streaming `stream_chat` never raises for these
providers.  For every other identifier except `"anthropic"` with the
treat-as-OpenAI-compatible flag set, every non-streaming chunk sequence
yields no events and no error, because the non-streaming branch dispatches
on `provider in OPENAI_COMPATIBLE_PROVIDERS` rather than on the flag and
the resulting `raise ValueError` is swallowed by `except Exception`. -/
theorem C3_amended_nonstream_dialect (k u : String) (flag : Bool) :
    (∀ p, (p = "openrouter" ∨ p = "oneapi") →
      (∀ (s : Chars) (kvs c0kvs mkvs : List (String × Json)) (restC : List Json) (t : String),
        json_loads s = some (Json.obj kvs) →
        lookupLast kvs "choices" = some (Json.arr (Json.obj c0kvs :: restC)) →
        lookupLast c0kvs "message" = some (Json.obj mkvs) →
        lookupLast mkvs "content" = some (Json.str t) →
        t ≠ "" →
        processResponseChunk (ClaudeClient.init k u p flag) s = [("answer", Json.str t)]) ∧
      (∀ (s : Chars) (kvs : List (String × Json)),
        json_loads s = some (Json.obj kvs) →
        lookupLast kvs "choices" = some (Json.arr []) →
        processResponseChunk (ClaudeClient.init k u p flag) s = []) ∧
      (∀ (messages : List Json) (a : Rat × Rat × Rat × Rat) (m : String) (chunks : List Chars),
        ∃ evs, stream_chat (ClaudeClient.init k u p flag) messages a m false chunks =
          Except.ok evs)) ∧
    (∀ p, p ≠ "anthropic" → p ≠ "openrouter" → p ≠ "oneapi" →
      ∀ (messages : List Json) (a : Rat × Rat × Rat × Rat) (m : String) (chunks : List Chars),
        stream_chat (ClaudeClient.init k u p true) messages a m false chunks =
          Except.ok []) := by
  constructor
  · intro p hp
    have hprov : (ClaudeClient.init k u p flag).provider = p := rfl
    have hcont : OPENAI_COMPATIBLE_PROVIDERS.contains p = true := by
      rcases hp with hp | hp <;> rw [hp] <;> decide
    refine ⟨?_, ?_, ?_⟩
    · intro s kvs c0kvs mkvs restC t hs hc hm hcon ht
      rw [processResponseChunk, hs]
      rw [hprov, hcont]
      simp only [if_true]
      rw [show pyGetD (Json.obj kvs) "choices" (Json.arr []) =
          some (Json.arr (Json.obj c0kvs :: restC)) by simp [pyGetD, hc]]
      simp only [pyTruthy, if_true]
      rw [show pyIndex0 (Json.arr (Json.obj c0kvs :: restC)) = some (Json.obj c0kvs) from rfl]
      simp only [Option.some_bind]
      rw [show pyGetD (Json.obj c0kvs) "message" (Json.obj []) = some (Json.obj mkvs) by
        simp [pyGetD, hm]]
      simp only [Option.some_bind]
      rw [show pyGetD (Json.obj mkvs) "content" (Json.str "") = some (Json.str t) by
        simp [pyGetD, hcon]]
      simp [emitIf, pyTruthy, ht]
    · intro s kvs hs hc
      rw [processResponseChunk, hs]
      rw [hprov, hcont]
      simp only [if_true]
      rw [show pyGetD (Json.obj kvs) "choices" (Json.arr []) = some (Json.arr []) by
        simp [pyGetD, hc]]
      simp [pyTruthy]
    · intro messages a m chunks
      rcases hp with hp | hp <;> rw [hp] <;> cases flag <;> exact ⟨_, rfl⟩
  · intro p hpa hor hoa messages a m chunks
    have hcont : OPENAI_COMPATIBLE_PROVIDERS.contains p = false := by
      unfold OPENAI_COMPATIBLE_PROVIDERS
      simp [List.contains, List.elem_cons, hor, hoa]
    have henc : encodeRequest (ClaudeClient.init k u p true) messages a m false =
        Except.ok (openaiHeaders k p, openaiData m messages a false) := by
      unfold encodeRequest ClaudeClient.init
      dsimp only
      rw [if_neg hor, if_neg hpa]
      rfl
    have hns : ∀ cs : List Chars, nonStreamEvents (ClaudeClient.init k u p true) cs = [] := by
      intro cs
      induction cs with
      | nil => rfl
      | cons ch rest ih =>
        rw [nonStreamEvents, ih,
          processResponseChunk_other (ClaudeClient.init k u p true) hcont hpa ch]
        rfl
    unfold stream_chat
    rw [henc]
    dsimp only
    rw [hns chunks]
    rfl

theorem C3_amended_witness :
    processResponseChunk (ClaudeClient.init "k" "u" "openrouter" false)
      "\x7b\"choices\": [\x7b\"message\": \x7b\"content\": \"hi\"\x7d\x7d]\x7d".data =
      [("answer", Json.str "hi")] ∧
    stream_chat (ClaudeClient.init "k" "u" "custom" true) [] (1, 1, 0, 0) "m" false
      ["\x7b\"choices\": [\x7b\"message\": \x7b\"content\": \"hi\"\x7d\x7d]\x7d".data] =
      Except.ok [] :=
  ⟨(((C3_amended_nonstream_dialect "k" "u" false).1 "openrouter" (Or.inl rfl)).1
    "\x7b\"choices\": [\x7b\"message\": \x7b\"content\": \"hi\"\x7d\x7d]\x7d".data
    [("choices", Json.arr [Json.obj [("message", Json.obj [("content", Json.str "hi")])]])]
    [("message", Json.obj [("content", Json.str "hi")])]
    [("content", Json.str "hi")]
    [] "hi" rfl rfl rfl rfl (by decide)),
   ((C3_amended_nonstream_dialect "k" "u" true).2 "custom" (by decide) (by decide) (by decide)
    [] (1, 1, 0, 0) "m"
    ["\x7b\"choices\": [\x7b\"message\": \x7b\"content\": \"hi\"\x7d\x7d]\x7d".data])⟩

/-- C4: in both dialects the `temperature` field of the outbound payload is
`1` whenever the caller-supplied temperature is below `0` or above `1`, and
the raw value otherwise; in particular `0` and `1` pass through unchanged. -/
theorem C4_temperature_clamp (m : String) (messages : List Json)
    (a : Rat × Rat × Rat × Rat) (stream : Bool) :
    lookupLast (anthropicData m messages a stream) "temperature" =
      some (Json.num (if a.1 < 0 ∨ a.1 > 1 then 1 else a.1)) ∧
    lookupLast (openaiData m messages a stream) "temperature" =
      some (Json.num (if a.1 < 0 ∨ a.1 > 1 then 1 else a.1)) ∧
    lookupLast (anthropicData m messages (0, a.2) stream) "temperature" =
      some (Json.num 0) ∧
    lookupLast (openaiData m messages (0, a.2) stream) "temperature" =
      some (Json.num 0) ∧
    lookupLast (anthropicData m messages (1, a.2) stream) "temperature" =
      some (Json.num 1) ∧
    lookupLast (openaiData m messages (1, a.2) stream) "temperature" =
      some (Json.num 1) := by
  refine ⟨?_, ?_, ?_, ?_, ?_, ?_⟩ <;>
    simp [anthropicData, openaiData, lookupLast]

/-- C5: for provider `"openrouter"` the encoded payload's `model` field is
always the canonical string `"anthropic/claude-3.5-sonnet"`, whatever model
name the caller supplied. -/
theorem C5_openrouter_model_override (k u m : String) (flag : Bool)
    (messages : List Json) (a : Rat × Rat × Rat × Rat) (stream : Bool) :
    ∃ headers payload,
      encodeRequest (ClaudeClient.init k u "openrouter" flag) messages a m stream =
        Except.ok (headers, payload) ∧
      lookupLast payload "model" = some (Json.str "anthropic/claude-3.5-sonnet") := by
  cases flag <;>
    exact ⟨_, _, rfl, by simp [openaiData, lookupLast, ClaudeClient.init]⟩

/-- C7: the native-Anthropic payload carries exactly the keys `model`,
`messages`, `max_tokens` (fixed at 8192), `stream`, `temperature`, `top_p`
— no presence/frequency penalties — while the OpenAI-compatible payload
carries exactly `model`, `messages`, `stream`, `temperature`, `top_p`,
`presence_penalty`, `frequency_penalty`. -/
theorem C7_payload_keys (m : String) (messages : List Json)
    (a : Rat × Rat × Rat × Rat) (stream : Bool) :
    (anthropicData m messages a stream).map Prod.fst =
      ["model", "messages", "max_tokens", "stream", "temperature", "top_p"] ∧
    lookupLast (anthropicData m messages a stream) "max_tokens" =
      some (Json.num 8192) ∧
    lookupLast (anthropicData m messages a stream) "presence_penalty" = none ∧
    lookupLast (anthropicData m messages a stream) "frequency_penalty" = none ∧
    (openaiData m messages a stream).map Prod.fst =
      ["model", "messages", "stream", "temperature", "top_p",
       "presence_penalty", "frequency_penalty"] := by
  refine ⟨rfl, ?_, ?_, ?_, rfl⟩ <;> simp [anthropicData, lookupLast]

theorem stream_chat_error_iff_encode (cl : ClaudeClient) (messages : List Json)
    (a : Rat × Rat × Rat × Rat) (m : String) (stream : Bool) (chunks : List Chars)
    (e : String) :
    stream_chat cl messages a m stream chunks = Except.error e ↔
      encodeRequest cl messages a m stream = Except.error e := by
  unfold stream_chat
  rcases henc : encodeRequest cl messages a m stream with e' | pr <;> simp

theorem encodeRequest_error_iff (k u p m : String) (flag : Bool) (messages : List Json)
    (a : Rat × Rat × Rat × Rat) (stream : Bool) :
    (∃ e, encodeRequest (ClaudeClient.init k u p flag) messages a m stream =
      Except.error e) ↔
      (p ≠ "anthropic" ∧ p ≠ "openrouter" ∧ p ≠ "oneapi" ∧ flag = false) := by
  unfold encodeRequest ClaudeClient.init
  dsimp only
  by_cases hpa : p = "anthropic"
  · simp [hpa]
  · rw [if_neg hpa]
    by_cases hor : p = "openrouter"
    · subst hor
      rw [show OPENAI_COMPATIBLE_PROVIDERS.contains "openrouter" = true from rfl]
      simp
    · by_cases hoa : p = "oneapi"
      · subst hoa
        rw [show OPENAI_COMPATIBLE_PROVIDERS.contains "oneapi" = true from rfl]
        simp [hpa]
      · have hcont : OPENAI_COMPATIBLE_PROVIDERS.contains p = false := by
          unfold OPENAI_COMPATIBLE_PROVIDERS
          simp [List.contains, List.elem_cons, hor, hoa]
        rw [hcont]
        cases flag
        · simp [hpa, hor, hoa]
        · simp [hpa, hor, hoa]

/-- C8: for every provider identifier other than `"anthropic"`,
`"openrouter"`, `"oneapi"`, with the OpenAI-compatible flag unset,
`stream_chat` raises the unsupported-provider error, this is the only
condition producing an error, and the error is decided before the chunk
sequence is touched (the same error results for every chunk sequence). -/
theorem C8_unsupported_provider (k u p m : String) (flag : Bool)
    (messages : List Json) (a : Rat × Rat × Rat × Rat) (stream : Bool)
    (chunks : List Chars) :
    ((∃ e, stream_chat (ClaudeClient.init k u p flag) messages a m stream chunks =
        Except.error e) ↔
      (p ≠ "anthropic" ∧ p ≠ "openrouter" ∧ p ≠ "oneapi" ∧ flag = false)) ∧
    (∀ e, stream_chat (ClaudeClient.init k u p flag) messages a m stream chunks =
        Except.error e →
      ∀ chunks', stream_chat (ClaudeClient.init k u p flag) messages a m stream chunks' =
        Except.error e) := by
  constructor
  · refine Iff.trans ?_ (encodeRequest_error_iff k u p m flag messages a stream)
    exact exists_congr
      (fun e => stream_chat_error_iff_encode (ClaudeClient.init k u p flag)
        messages a m stream chunks e)
  · intro e he chunks'
    rw [stream_chat_error_iff_encode] at he
    rw [stream_chat_error_iff_encode]
    exact he

theorem C8_witness :
    ∃ e, stream_chat (ClaudeClient.init "k" "u" "foobar" false) [] (1, 1, 0, 0) "m" true [] =
      Except.error e :=
  (C8_unsupported_provider "k" "u" "foobar" "m" false [] (1, 1, 0, 0) true []).1.mpr
    ⟨by decide, by decide, by decide, rfl⟩

/-- C9: a client built with provider `"anthropic"` and the OpenAI-compatible
flag set encodes requests in the native dialect (`x-api-key` header,
`max_tokens` in the payload) but parses streaming responses in the
OpenAI-compatible branch, so valid native `content_block_delta` frames
produce no events. -/
theorem C9_anthropic_flag_mismatch (k u m : String) (messages : List Json)
    (a : Rat × Rat × Rat × Rat) (stream : Bool) :
    (∃ payload,
      encodeRequest (ClaudeClient.init k u "anthropic" true) messages a m stream =
        Except.ok (anthropicHeaders k stream, payload) ∧
      lookupLast (anthropicHeaders k stream) "x-api-key" = some k ∧
      lookupLast payload "max_tokens" = some (Json.num 8192)) ∧
    (∀ (s : Chars) (t : String),
      json_loads s = some (anthropicDeltaFrame t) →
      processDataPayload (ClaudeClient.init k u "anthropic" true) s = []) := by
  constructor
  · refine ⟨_, rfl, ?_, ?_⟩
    · simp [anthropicHeaders, lookupLast]
    · simp [anthropicData, lookupLast, ClaudeClient.init]
  · intro s t h
    exact processDataPayload_delta_openai_branch rfl h

theorem C9_witness :
    processDataPayload (ClaudeClient.init "k" "u" "anthropic" true)
      "\x7b\"type\": \"content_block_delta\", \"delta\": \x7b\"text\": \"Hel\"\x7d\x7d".data =
      [] :=
  (C9_anthropic_flag_mismatch "k" "u" "m" [] (1, 1, 0, 0) true).2
    "\x7b\"type\": \"content_block_delta\", \"delta\": \x7b\"text\": \"Hel\"\x7d\x7d".data
    "Hel" rfl

/-- C10: every event yielded by `stream_chat`, in both modes and dialects,
carries truthy content; in particular the content is never the empty
string (an empty or absent `content`/`text` field produces no event). -/
theorem C10_events_truthy (cl : ClaudeClient) (messages : List Json)
    (a : Rat × Rat × Rat × Rat) (m : String) (stream : Bool) (chunks : List Chars)
    (evs : List Event)
    (h : stream_chat cl messages a m stream chunks = Except.ok evs) :
    ∀ ev ∈ evs, pyTruthy ev.2 = true ∧ ev.2 ≠ Json.str "" := by
  intro ev hev
  have hevs : evs = if stream then processChunks cl chunks else nonStreamEvents cl chunks := by
    unfold stream_chat at h
    rcases henc : encodeRequest cl messages a m stream with e | pr
    · rw [henc] at h
      simp at h
    · rw [henc] at h
      injection h with h'
      exact h'.symm
  subst hevs
  have htr : pyTruthy ev.2 = true := by
    cases stream
    · simp only [Bool.false_eq_true, if_false] at hev
      exact mem_nonStreamEvents_truthy hev
    · simp only [if_pos rfl] at hev
      exact mem_processChunks_truthy hev
  refine ⟨htr, ?_⟩
  intro hstr
  rw [hstr] at htr
  exact absurd htr (by simp [pyTruthy])

theorem C10_witness :
    pyTruthy (("answer", Json.str "Hel") : Event).2 = true ∧
      (("answer", Json.str "Hel") : Event).2 ≠ Json.str "" :=
  C10_events_truthy (ClaudeClient.init "k" "u" "anthropic" false) [] (1, 1, 0, 0) "m" true
    ["data: \x7b\"type\": \"content_block_delta\", \"delta\": \x7b\"text\": \"Hel\"\x7d\x7d".data]
    [("answer", Json.str "Hel")] rfl ("answer", Json.str "Hel")
    (List.mem_singleton.mpr rfl)
